import Mathlib

/-!
Verification development for the mesh-viewer loading core.

This file gives a shallow embedding, in Lean 4, of the TypeScript
mesh-loading core (format detection, the in-process ASCII decoders, the
Embind foreign-decoder bridge, the buffer lifecycle, the fast/exact
fallback orchestration, the log ring buffer, the shared-buffer watchdog
and the clipping-plane construction), and proves properties of the
embedded definitions.

Modelling conventions:
* JavaScript numbers are modelled as exact rationals with an explicit
  NaN marker (`JsNum := Option ℚ`, `none` = NaN).  The inputs exercised
  by the theorems only involve values on which IEEE-754 doubles are
  exact, so the rational model agrees with the source.
* File bytes are modelled as `List Nat`; text decoding of ASCII bytes
  maps each byte to the character with that code point (the behaviour
  of `TextDecoder` on the ASCII fragment, the only fragment the
  theorems exercise).
* Mutable state (the Embind generation table, the log ring buffer, the
  release flags) is threaded explicitly.
* Wall-clock timing (`performance.now`) and random identifiers
  (`crypto.randomUUID`) are side channels with no influence on the
  verified control flow; they are left out of the embedded records.
-/

namespace MeshViewer

/-! ## JavaScript string and number primitives used by the source -/

/-- A JavaScript number: `none` models NaN, `some q` a finite value. -/
abbrev JsNum := Option ℚ

/-- Whitespace test matching the characters the source's `\s` and
`trim` act on in the ASCII range. -/
def isWsChar (c : Char) : Bool :=
  c = ' ' ∨ c = '\t' ∨ c = '\n' ∨ c = '\r' ∨ c = '\x0b' ∨ c = '\x0c'

/-- `String.prototype.trim`: strip leading and trailing whitespace. -/
def jsTrim (s : String) : String :=
  ⟨(s.data.dropWhile isWsChar).reverse.dropWhile isWsChar |>.reverse⟩

/-- One right-fold step of `split(/\s+/)`: the accumulator pairs the
token list of the processed suffix with whether the character to the
right opened a whitespace run (so consecutive whitespace collapses
into one separator). -/
def splitWsStep (c : Char) (acc : List String × Bool) : List String × Bool :=
  if isWsChar c then
    if acc.2 then acc
    else ("" :: acc.1, true)
  else
    match acc.1 with
    | t :: ts => (⟨c :: t.data⟩ :: ts, false)
    | [] => ([⟨[c]⟩], false)

/-- `String.prototype.split(/\s+/)`: maximal whitespace runs separate
tokens; a leading or trailing run contributes an empty token, as in
JavaScript. -/
def splitWs (s : String) : List String :=
  (s.data.foldr splitWsStep ([""], false)).1

/-- `String.prototype.split(sep)` for a single separator character:
every occurrence separates, empty segments included. -/
def splitOnChar (sep : Char) (s : String) : List String :=
  s.data.foldr
    (fun c acc =>
      match acc with
      | t :: ts => if c = sep then "" :: t :: ts else ⟨c :: t.data⟩ :: ts
      | [] => [⟨[c]⟩])
    [""]

/-- `String.prototype.split('\n')`. -/
def splitNl (s : String) : List String :=
  splitOnChar '\n' s

/-- `String.prototype.startsWith`. -/
def strStartsWith (s pre : String) : Bool :=
  pre.data.isPrefixOf s.data

/-- `String.prototype.endsWith`. -/
def strEndsWith (s suf : String) : Bool :=
  suf.data.reverse.isPrefixOf s.data.reverse

/-- `String.prototype.substring(n)` on ASCII text: drop the first `n`
characters. -/
def strDropChars (s : String) (n : Nat) : String :=
  ⟨s.data.drop n⟩

/-- The scan of `String.prototype.includes`: test the needle as a
prefix of every suffix of the haystack. -/
def jsIncludesGo (pat : List Char) : List Char → Bool
  | [] => pat.isEmpty
  | c :: rest => if pat.isPrefixOf (c :: rest) then true else jsIncludesGo pat rest

/-- `String.prototype.includes`: substring containment, as a boolean. -/
def jsIncludes (s sub : String) : Bool :=
  jsIncludesGo sub.data s.data

/-- `String.prototype.toLowerCase` on the ASCII fragment. -/
def jsToLower (s : String) : String :=
  ⟨s.data.map Char.toLower⟩

/-- Digit test for the decimal parsers. -/
def isDigitChar (c : Char) : Bool := '0' ≤ c ∧ c ≤ '9'

/-- Value of a decimal digit list (most significant first). -/
def digitsVal (l : List Char) : Nat :=
  l.foldl (fun acc c => acc * 10 + (c.toNat - '0'.toNat)) 0

/-- `parseInt(s, 10)`: optional sign, then a maximal run of decimal
digits; NaN (`none`) when no digit is present.  (Leading whitespace is
skipped by the source's `parseInt`; every call site passes tokens that
were already split on whitespace, and the embedding skips it too.) -/
def jsParseInt (s : String) : Option Int :=
  let l := s.data.dropWhile isWsChar
  let (sign, rest) : Int × List Char :=
    match l with
    | '-' :: r => (-1, r)
    | '+' :: r => (1, r)
    | r => (1, r)
  let digits := rest.takeWhile isDigitChar
  if digits.isEmpty then none
  else some (sign * (digitsVal digits : Int))

/-- `parseFloat(s)`: optional sign, integer part, optional fractional
part, optional decimal exponent; NaN (`none`) when no digit occurs
before the exponent.  (The special `Infinity` literal, which no input
of this development contains, is not modelled.) -/
def jsParseFloat (s : String) : JsNum :=
  let l := s.data.dropWhile isWsChar
  let (sign, rest) : ℚ × List Char :=
    match l with
    | '-' :: r => (-1, r)
    | '+' :: r => (1, r)
    | r => (1, r)
  let intPart := rest.takeWhile isDigitChar
  let rest2 := rest.drop intPart.length
  let (fracPart, rest3) : List Char × List Char :=
    match rest2 with
    | '.' :: r => (r.takeWhile isDigitChar, r.drop (r.takeWhile isDigitChar).length)
    | r => ([], r)
  if intPart.isEmpty ∧ fracPart.isEmpty then none
  else
    let mantissa : ℚ :=
      (digitsVal intPart : ℚ) + (digitsVal fracPart : ℚ) / ((10 : ℚ) ^ fracPart.length)
    let expVal : Option Int :=
      match rest3 with
      | 'e' :: r => jsParseInt ⟨r⟩
      | 'E' :: r => jsParseInt ⟨r⟩
      | _ => some 0
    match expVal with
    | some e => some (sign * mantissa * (10 : ℚ) ^ e)
    | none => some (sign * mantissa)

/-- `ToUint32` applied when a JavaScript number is stored into a
`Uint32Array`: NaN becomes 0, finite values truncate toward zero and
reduce modulo `2 ^ 32`. -/
def jsToUint32 (n : JsNum) : Nat :=
  match n with
  | none => 0
  | some q => ((Int.tdiv q.num (q.den : Int)) % (2 ^ 32 : Int)).toNat

/-- Decode ASCII bytes to text: each byte becomes the character with
that code point (the behaviour of `TextDecoder` on ASCII input). -/
def decodeAscii (bytes : List Nat) : String :=
  ⟨bytes.map Char.ofNat⟩

/-- `DataView.getUint32(offset, true)`: little-endian 32-bit read. -/
def getUint32LE (bytes : List Nat) (offset : Nat) : Nat :=
  (bytes.getD offset 0) +
    256 * (bytes.getD (offset + 1) 0) +
    65536 * (bytes.getD (offset + 2) 0) +
    16777216 * (bytes.getD (offset + 3) 0)

/-! ## Clipping-plane construction (`utils/clipping` and `slice-mesh.ts`) -/

/-- The three axis choices of `ClippingAxis`. -/
inductive ClippingAxis
  | x
  | y
  | z
deriving DecidableEq

/-- A 3-vector of exact rationals. -/
structure Vec3 where
  x : ℚ
  y : ℚ
  z : ℚ
deriving DecidableEq

/-- Pointwise negation of a vector. -/
def Vec3.neg (v : Vec3) : Vec3 :=
  ⟨-v.x, -v.y, -v.z⟩

/-- Dot product. -/
def Vec3.dot (a b : Vec3) : ℚ :=
  a.x * b.x + a.y * b.y + a.z * b.z

/-- Axis-aligned bounding box, mirroring the `BoundingBox` interface. -/
structure BoundingBox where
  min : Vec3
  max : Vec3

/-- The fields of `ClippingState` read by `computeClippingPlane`
(`enabled` is carried for completeness; the plane maths ignores it). -/
structure ClippingState where
  enabled : Bool
  axis : ClippingAxis
  position : ℚ
  flipped : Bool

/-- A `THREE.Plane`: unit normal plus plane constant.  A point `p` lies
on the plane when `normal ⬝ p + constant = 0`. -/
structure ThreePlane where
  normal : Vec3
  constant : ℚ
deriving DecidableEq

/-- `getAxisValue`: project a point onto one axis. -/
def getAxisValue (point : Vec3) (axis : ClippingAxis) : ℚ :=
  match axis with
  | .x => point.x
  | .y => point.y
  | .z => point.z

/-- `computeClippingPlane` from the clipping utilities: slider position
(0–100) becomes a coordinate along the chosen axis; the normal is the
axis unit vector, negated when `flipped`; the Three.js constant is
`planePos` when flipped and `-planePos` otherwise. -/
def computeClippingPlane (clipping : ClippingState) (bbox : BoundingBox) : ThreePlane :=
  let t := clipping.position / 100
  let axis := clipping.axis
  let axisMin := getAxisValue bbox.min axis
  let axisMax := getAxisValue bbox.max axis
  let planePos := axisMin + t * (axisMax - axisMin)
  let normal : Vec3 :=
    ⟨if axis = .x then 1 else 0,
     if axis = .y then 1 else 0,
     if axis = .z then 1 else 0⟩
  let normal := if clipping.flipped then normal.neg else normal
  let constant := if clipping.flipped then planePos else -planePos
  ⟨normal, constant⟩

/-- A `SlicePlane`: normal plus signed distance from the origin. -/
structure SlicePlane where
  normal : Vec3
  distance : ℚ
deriving DecidableEq

/-- `createAxisPlane` from `slice-mesh.ts`: axis unit normal, negated
when `flip`; the signed distance is the given position. -/
def createAxisPlane (axis : ClippingAxis) (position : ℚ) (flip : Bool) : SlicePlane :=
  let normal : Vec3 :=
    match axis with
    | .x => ⟨1, 0, 0⟩
    | .y => ⟨0, 1, 0⟩
    | .z => ⟨0, 0, 1⟩
  let normal := if flip then normal.neg else normal
  ⟨normal, position⟩

/-- `computeSlicePlane` from `slice-mesh.ts`: map a 0–1 position along
the chosen bounding-box axis to a coordinate, then build the axis
plane. -/
def computeSlicePlane (axis : ClippingAxis) (position : ℚ) (flip : Bool)
    (bbox : BoundingBox) : SlicePlane :=
  let rangeMin := getAxisValue bbox.min axis
  let rangeMax := getAxisValue bbox.max axis
  let distance := rangeMin + (rangeMax - rangeMin) * position
  createAxisPlane axis distance flip

/-- Membership of a point in a Three.js plane. -/
def ThreePlane.contains (p : ThreePlane) (v : Vec3) : Prop :=
  p.normal.dot v + p.constant = 0

/-! ## Format detector (`format-detector`) -/

/-- The `MeshFormat` union: the six string constants of the source
(`'stl'` is the source's name for the ASCII STL variant, which the
design document calls `stl_ascii`). -/
inductive MeshFormat
  | stl
  | stl_binary
  | obj
  | ply_ascii
  | ply_binary_le
  | ply_binary_be
deriving DecidableEq

/-- `detectPlySubformat`: decode the header, lowercase it, and look for
the binary `format` directives. -/
def detectPlySubformat (header : List Nat) : MeshFormat :=
  let lowerText := jsToLower (decodeAscii header)
  if jsIncludes lowerText "format binary_little_endian" then .ply_binary_le
  else if jsIncludes lowerText "format binary_big_endian" then .ply_binary_be
  else .ply_ascii

/-- `detectByMagicBytes`: the magic-byte classifier over the file
header (PLY magic, OBJ first-two-bytes heuristic, ASCII `solid` STL,
binary STL triangle-count heuristic). -/
def detectByMagicBytes (header : List Nat) : Option MeshFormat :=
  if header.length < 4 then none
  else if header.getD 0 0 = 0x70 ∧ header.getD 1 0 = 0x6C ∧ header.getD 2 0 = 0x79 ∧
      (header.getD 3 0 = 0x0A ∨ header.getD 3 0 = 0x0D) then
    some (detectPlySubformat header)
  else
    let firstTwo := decodeAscii (header.take 2)
    if firstTwo = "v " ∨ firstTwo = "# " then some .obj
    else
      let first5 := jsToLower (decodeAscii (header.take 5))
      if first5 = "solid" ∧ (header.take 80).contains 0x0A then some .stl
      else if 84 ≤ header.length ∧
          (0 < getUint32LE header 80 ∧ getUint32LE header 80 < 100000000) ∧
          first5 ≠ "solid" then
        some .stl_binary
      else none

/-- `detectByExtension`: classify by the lowercased last dot-separated
name component. -/
def detectByExtension (fileName : String) : Option MeshFormat :=
  let ext := jsToLower ((splitOnChar '.' fileName).getLastD "")
  if ext = "stl" then some .stl
  else if ext = "obj" then some .obj
  else if ext = "ply" then some .ply_ascii
  else none

/-- `detectByMime`: substring matching on the lowercased MIME type. -/
def detectByMime (mimeType : String) : Option MeshFormat :=
  let lower := jsToLower mimeType
  if jsIncludes lower "stl" ∨ lower = "model/stl" then some .stl
  else if jsIncludes lower "obj" ∨ lower = "model/obj" then some .obj
  else if jsIncludes lower "ply" then some .ply_ascii
  else none

/-- The format string the source stores for each `MeshFormat` value
(used for the `startsWith` family computation). -/
def formatString (f : MeshFormat) : String :=
  match f with
  | .stl => "stl"
  | .stl_binary => "stl_binary"
  | .obj => "obj"
  | .ply_ascii => "ply_ascii"
  | .ply_binary_le => "ply_binary_le"
  | .ply_binary_be => "ply_binary_be"

/-- The `family` helper of `isSameFormatFamily`: collapse to `stl` /
`ply` by string prefix, otherwise keep the format string. -/
def formatFamily (f : MeshFormat) : String :=
  if strStartsWith (formatString f) "stl" then "stl"
  else if strStartsWith (formatString f) "ply" then "ply"
  else formatString f

/-- `isSameFormatFamily`. -/
def isSameFormatFamily (a b : MeshFormat) : Bool :=
  formatFamily a = formatFamily b

/-- `isSupportedFormat`: null is unsupported; every concrete format is
in the source's supported list. -/
def isSupportedFormat (format : Option MeshFormat) : Bool :=
  match format with
  | none => false
  | some f =>
    [MeshFormat.stl, .stl_binary, .obj, .ply_ascii, .ply_binary_le, .ply_binary_be].contains f

/-- The detection method recorded in a `FormatDetectionResult`. -/
inductive DetectionMethod
  | magic
  | extension
  | mime
  | unknown
deriving DecidableEq

/-- `FormatDetectionResult`. -/
structure FormatDetectionResult where
  format : Option MeshFormat
  method : DetectionMethod
  mismatch : Bool
  expectedFormat : Option MeshFormat
deriving DecidableEq

/-- A browser `File` as the detector consumes it: name, MIME type and
content bytes (`size` is the byte count). -/
structure FileModel where
  name : String
  type : String
  data : List Nat

/-- `File.size`. -/
def FileModel.size (f : FileModel) : Nat := f.data.length

/-- `detectMeshFormat`: magic bytes first (on the first
`min 256 size` bytes), then extension, then MIME type; a magic-byte
hit whose family differs from the extension-implied family sets
`mismatch` and `expectedFormat`. -/
def detectMeshFormat (file : FileModel) : FormatDetectionResult :=
  let extensionFormat := detectByExtension file.name
  let headerSize := min 256 file.size
  let header := file.data.take headerSize
  match detectByMagicBytes header with
  | some magicFormat =>
    match extensionFormat with
    | some ef =>
      if ¬ isSameFormatFamily ef magicFormat then
        { format := some magicFormat, method := .magic, mismatch := true,
          expectedFormat := some ef }
      else
        { format := some magicFormat, method := .magic, mismatch := false,
          expectedFormat := none }
    | none =>
      { format := some magicFormat, method := .magic, mismatch := false,
        expectedFormat := none }
  | none =>
    match extensionFormat with
    | some ef =>
      { format := some ef, method := .extension, mismatch := false, expectedFormat := none }
    | none =>
      if file.type ≠ "" then
        match detectByMime file.type with
        | some mf =>
          { format := some mf, method := .mime, mismatch := false, expectedFormat := none }
        | none =>
          { format := none, method := .unknown, mismatch := false, expectedFormat := none }
      else
        { format := none, method := .unknown, mismatch := false, expectedFormat := none }

/-! ## In-process decoders (`js-parsers`) -/

/-- `ToUint32` of an integer-valued JavaScript number, as applied when
a parsed index is stored into a `Uint32Array`: NaN becomes 0, integers
wrap modulo `2 ^ 32`. -/
def intToUint32 (n : Option Int) : Nat :=
  match n with
  | none => 0
  | some i => (i % (2 ^ 32 : Int)).toNat

/-- `JsParseResult`: the in-process decoders' common result shape.
`vertices` entries are JavaScript numbers (NaN possible); `indices`
are the values after `Uint32Array` conversion.  `vertexCount` is kept
as the raw JavaScript number (for ASCII PLY it is the header count,
which `parseInt` can make NaN). -/
structure JsParseResult where
  vertices : List JsNum
  indices : List Nat
  vertexCount : Option Int
  faceCount : Nat
deriving DecidableEq

/-- The `format` directive values of a PLY header. -/
inductive PlyFormat
  | ascii
  | binary_little_endian
  | binary_big_endian
deriving DecidableEq

/-- `PlyHeader`. -/
structure PlyHeader where
  format : PlyFormat
  vertexCount : Option Int
  faceCount : Option Int
  headerEndOffset : Nat
deriving DecidableEq

/-- `replace(/\r$/, '')`: drop one trailing carriage return. -/
def dropCrSuffix (s : String) : String :=
  if strEndsWith s "\r" then ⟨s.data.dropLast⟩ else s

/-- The line loop of `parsePlyHeader`: scan directives, accumulating
the running byte offset; `end_header` records `offset + line.length + 1`
and stops; falling off the end leaves `headerEndOffset` at its initial
value 0. -/
def plyHeaderLoop (lines : List String) (offset : Nat) (format : PlyFormat)
    (vertexCount faceCount : Option Int) : PlyFormat × Option Int × Option Int × Nat :=
  match lines with
  | [] => (format, vertexCount, faceCount, 0)
  | line :: rest =>
    let lineWithNewline := line.length + 1
    let trimmed := dropCrSuffix (jsTrim line)
    if strStartsWith trimmed "format " then
      let parts := splitWs trimmed
      let format :=
        if parts.getD 1 "" = "binary_little_endian" then PlyFormat.binary_little_endian
        else if parts.getD 1 "" = "binary_big_endian" then PlyFormat.binary_big_endian
        else PlyFormat.ascii
      plyHeaderLoop rest (offset + lineWithNewline) format vertexCount faceCount
    else if strStartsWith trimmed "element vertex " then
      let parts := splitWs trimmed
      plyHeaderLoop rest (offset + lineWithNewline) format (jsParseInt (parts.getD 2 "")) faceCount
    else if strStartsWith trimmed "element face " then
      let parts := splitWs trimmed
      plyHeaderLoop rest (offset + lineWithNewline) format vertexCount (jsParseInt (parts.getD 2 ""))
    else if trimmed = "end_header" then
      (format, vertexCount, faceCount, offset + line.length + 1)
    else
      plyHeaderLoop rest (offset + lineWithNewline) format vertexCount faceCount

/-- `parsePlyHeader`: decode the first `min 4096 size` bytes, split on
newlines and scan the directives. -/
def parsePlyHeader (data : List Nat) : PlyHeader :=
  let maxHeaderSize := min 4096 data.length
  let headerText := decodeAscii (data.take maxHeaderSize)
  let (format, vertexCount, faceCount, headerEndOffset) :=
    plyHeaderLoop (splitNl headerText) 0 .ascii (some 0) (some 0)
  ⟨format, vertexCount, faceCount, headerEndOffset⟩

/-- The vertex loop of `parseAsciiPly`: read `need` vertex lines,
skipping blank lines without consuming an iteration, producing the
parsed coordinate triples in order together with the remaining lines. -/
def plyVertexLoop (lines : List String) (need : Nat)
    (acc : List JsNum) : List JsNum × List String :=
  match need, lines with
  | 0, rest => (acc.reverse, rest)
  | _ + 1, [] => (acc.reverse, [])
  | n + 1, line :: rest =>
    let t := jsTrim line
    if t = "" then plyVertexLoop rest (n + 1) acc
    else
      let parts := splitWs t
      plyVertexLoop rest n
        (jsParseFloat (parts.getD 2 "") :: jsParseFloat (parts.getD 1 "") ::
          jsParseFloat (parts.getD 0 "") :: acc)

/-- The inner fan loop of a PLY face line: `steps` iterations starting
at token position `j`, each pushing `(first, parts[j], parts[j+1])`. -/
def plyFanLoop (parts : List String) (first : Option Int) (j steps : Nat)
    (acc : List (Option Int)) : List (Option Int) :=
  match steps with
  | 0 => acc
  | s + 1 =>
    plyFanLoop parts first (j + 1) s
      (jsParseInt (parts.getD (j + 1) "") :: jsParseInt (parts.getD j "") :: first :: acc)

/-- The face loop of `parseAsciiPly`: read `need` face lines, skipping
blank lines; a line whose leading vertex-per-face count is at least 3
is fan-triangulated, any other count contributes nothing. -/
def plyFaceLoop (lines : List String) (need : Nat)
    (acc : List (Option Int)) : List (Option Int) :=
  match need, lines with
  | 0, _ => acc.reverse
  | _ + 1, [] => acc.reverse
  | n + 1, line :: rest =>
    let t := jsTrim line
    if t = "" then plyFaceLoop rest (n + 1) acc
    else
      let parts := splitWs t
      match jsParseInt (parts.getD 0 "") with
      | some count =>
        if 3 ≤ count then
          let first := jsParseInt (parts.getD 1 "")
          plyFaceLoop rest n (plyFanLoop parts first 2 (count - 2).toNat [] ++ acc)
        else plyFaceLoop rest n acc
      | none => plyFaceLoop rest n acc

/-- `parseAsciiPly`: header, then `vertexCount` vertex lines, then
`faceCount` fan-triangulated face lines.  A negative header count makes
the source's typed-array allocation throw a `RangeError`; that is the
decoder's only exception, modelled as `Except.error`.  A NaN count
allocates an empty array and runs no iterations, as in the source.
Vertex slots no line ever filled keep the typed array's zero fill. -/
def parseAsciiPly (data : List Nat) : Except String JsParseResult :=
  let text := decodeAscii data
  let header := parsePlyHeader data
  match header.vertexCount, header.faceCount with
  | some vc, _ =>
    if vc < 0 then .error "Invalid typed array length"
    else
      let vcount := vc.toNat
      let dataText := strDropChars text header.headerEndOffset
      let lines := splitNl dataText
      let (verts, restLines) := plyVertexLoop lines vcount []
      let vertices := verts ++ List.replicate (vcount * 3 - verts.length) (some (0 : ℚ))
      let fcount : Nat := match header.faceCount with
        | some fc => fc.toNat
        | none => 0
      let tempIndices := plyFaceLoop restLines fcount []
      .ok { vertices := vertices,
            indices := tempIndices.map intToUint32,
            vertexCount := header.vertexCount,
            faceCount := tempIndices.length / 3 }
  | none, _ =>
    let dataText := strDropChars text header.headerEndOffset
    let lines := splitNl dataText
    let fcount : Nat := match header.faceCount with
      | some fc => fc.toNat
      | none => 0
    let tempIndices := plyFaceLoop lines fcount []
    .ok { vertices := [],
          indices := tempIndices.map intToUint32,
          vertexCount := none,
          faceCount := tempIndices.length / 3 }

/-- `isAsciiStl`: files under 84 bytes are ASCII; otherwise the file is
ASCII when it starts with (case-insensitive) `solid`, contains a
newline in the first 256 bytes, and the binary size formula
`84 + 50 × count` does not match the byte length exactly. -/
def isAsciiStl (data : List Nat) : Bool :=
  if data.length < 84 then true
  else
    let header := decodeAscii (data.take (min 256 data.length))
    if ¬ strStartsWith (jsToLower header) "solid" then false
    else if ¬ jsIncludes header "\n" then false
    else
      let triangleCount := getUint32LE data 80
      let expectedSize := 84 + triangleCount * 50
      if expectedSize = data.length then false
      else true

/-- Accumulator state of the ASCII STL line scan. -/
structure StlScanState where
  revVertices : List JsNum
  revIndices : List Nat
  vertexIndex : Nat

/-- One line of `parseAsciiStl`: a `vertex x y z` line pushes three
parsed floats; an `endfacet` line closes a triangle with the implicit
indices `vertexIndex, vertexIndex+1, vertexIndex+2`. -/
def stlScanLine (st : StlScanState) (line : String) : StlScanState :=
  let trimmed := jsTrim line
  if strStartsWith trimmed "vertex " then
    let parts := splitWs trimmed
    { st with revVertices :=
        jsParseFloat (parts.getD 3 "") :: jsParseFloat (parts.getD 2 "") ::
          jsParseFloat (parts.getD 1 "") :: st.revVertices }
  else if trimmed = "endfacet" then
    { st with
      revIndices := (st.vertexIndex + 2) :: (st.vertexIndex + 1) :: st.vertexIndex :: st.revIndices,
      vertexIndex := st.vertexIndex + 3 }
  else st

/-- `parseAsciiStl`: scan every line; vertices accumulate with no
deduplication and each `endfacet` emits the next three implicit
indices. -/
def parseAsciiStl (data : List Nat) : JsParseResult :=
  let lines := splitNl (decodeAscii data)
  let final := lines.foldl stlScanLine ⟨[], [], 0⟩
  let tempVertices := final.revVertices.reverse
  let tempIndices := final.revIndices.reverse
  { vertices := tempVertices,
    indices := tempIndices,
    vertexCount := some (tempVertices.length / 3 : Nat),
    faceCount := tempIndices.length / 3 }

/-- Resolve one OBJ face corner token: the part before the first `/`,
parsed as a 1-based index; negative indices count back from the
current vertex-pool size; NaN propagates. -/
def objResolveCorner (vertexSoFar : Nat) (spec : String) : Option Int :=
  let indexStr : String := ⟨spec.data.takeWhile (· ≠ '/')⟩
  match jsParseInt indexStr with
  | none => none
  | some idx =>
    let idx : Int := if idx < 0 then (vertexSoFar / 3 : Nat) + idx + 1 else idx
    some (idx - 1)

/-- The fan loop over an OBJ face's corner list: `i` runs from 1 while
`i < length - 1`, pushing `(f₀, fᵢ, fᵢ₊₁)` each round; the result is
the pushed sequence in reverse (the caller's accumulator order). -/
def objFanLoop (face : List (Option Int)) : List (Option Int) :=
  (List.range (face.length - 2)).foldl
    (fun acc k =>
      face.getD (k + 2) none :: face.getD (k + 1) none :: face.getD 0 none :: acc)
    []

/-- Accumulator state of the OBJ line scan. -/
structure ObjScanState where
  revVertices : List JsNum
  revIndices : List (Option Int)

/-- One line of `parseObj`: blank and `#` lines are skipped, `v` lines
extend the position pool, `f` lines resolve their corners against the
current pool and fan-triangulate. -/
def objScanLine (st : ObjScanState) (line : String) : ObjScanState :=
  let trimmed := jsTrim line
  if trimmed = "" ∨ strStartsWith trimmed "#" then st
  else
    let parts := splitWs trimmed
    if parts.getD 0 "" = "v" then
      { st with revVertices :=
          jsParseFloat (parts.getD 3 "") :: jsParseFloat (parts.getD 2 "") ::
            jsParseFloat (parts.getD 1 "") :: st.revVertices }
    else if parts.getD 0 "" = "f" then
      let faceIndices := (parts.drop 1).map (objResolveCorner st.revVertices.length)
      { st with revIndices := objFanLoop faceIndices ++ st.revIndices }
    else st

/-- `parseObj`: line scan with a growing position pool and fan
triangulation of faces. -/
def parseObj (data : List Nat) : JsParseResult :=
  let lines := splitNl (decodeAscii data)
  let final := lines.foldl objScanLine ⟨[], []⟩
  let tempVertices := final.revVertices.reverse
  let tempIndices := final.revIndices.reverse
  { vertices := tempVertices,
    indices := tempIndices.map intToUint32,
    vertexCount := some (tempVertices.length / 3 : Nat),
    faceCount := tempIndices.length / 3 }

/-! ## Embind bridge (`embind-bridge.ts`) and buffer lifecycle -/

/-- One registered buffer set of the bridge's `pendingBuffersMap`. -/
structure PendingBuffers where
  generation : Nat
  vertices : List JsNum
  indices : List Nat
  normals : Option (List JsNum)
deriving DecidableEq

/-- The bridge's module-level mutable state: the monotonically
increasing `generationCounter` and the `pendingBuffersMap`. -/
structure EmbindState where
  generationCounter : Nat
  pending : List (Nat × PendingBuffers)
deriving DecidableEq

/-- `pendingBuffersMap.get`. -/
def lookupGeneration (pending : List (Nat × PendingBuffers)) (generation : Nat) :
    Option PendingBuffers :=
  (pending.find? (fun e => e.1 = generation)).map (·.2)

/-- `pendingBuffersMap.delete`: remove the entry for a key; absent keys
leave the map unchanged. -/
def deleteGeneration (pending : List (Nat × PendingBuffers)) (generation : Nat) :
    List (Nat × PendingBuffers) :=
  pending.filter (fun e => ¬ e.1 = generation)

/-- `releaseBuffers` of the embind bridge: delete the registration. -/
def releaseBuffers (generation : Nat) (s : EmbindState) : EmbindState :=
  { s with pending := deleteGeneration s.pending generation }

/-- `getBuffersForGeneration`. -/
def getBuffersForGeneration (s : EmbindState) (generation : Nat) : Option PendingBuffers :=
  lookupGeneration s.pending generation

/-- `EmbindParseResult`, the value returned by the WASM module's
`parseMeshFromPointer` entry point. -/
structure EmbindParseResult where
  success : Bool
  error : String
  vertexCount : Nat
  faceCount : Nat
  vertices : Option (List JsNum)
  indices : Option (List Nat)
  normals : Option (List JsNum)

/-- `MeshBufferPointers` as the bridge returns them in embind mode:
the pointers are flag zeros, the counts are the copied array lengths. -/
structure MeshBufferPointers where
  vertexPtr : Nat
  vertexCount : Nat
  indexPtr : Nat
  indexCount : Nat
  normalPtr : Option Nat
  normalCount : Option Nat
  generation : Nat
deriving DecidableEq

/-- `bridge.parseMesh` of `createEmbindBridge`: run the module's parse
entry (modelled as the function `module` from input bytes to an
`EmbindParseResult`), throw its error on failure (with the
`'Mesh parsing failed'` fallback for an empty message), and on success
allocate the next generation, copy the result arrays and register them
in `pendingBuffersMap`.  The input-buffer malloc/free round trip has no
observable effect outside the foreign heap and is not modelled. -/
def bridgeParseMesh (module : List Nat → EmbindParseResult) (data : List Nat)
    (s : EmbindState) : Except String MeshBufferPointers × EmbindState :=
  let result := module data
  if ¬ result.success then
    (.error (if result.error = "" then "Mesh parsing failed" else result.error), s)
  else
    let generation := s.generationCounter + 1
    let vertices := result.vertices.getD []
    let indices := result.indices.getD []
    let normals := result.normals
    (.ok { vertexPtr := 0, vertexCount := vertices.length, indexPtr := 0,
           indexCount := indices.length,
           normalPtr := normals.map (fun _ => 0),
           normalCount := normals.map List.length,
           generation := generation },
     { generationCounter := generation,
       pending := s.pending ++ [(generation, ⟨generation, vertices, indices, normals⟩)] })

/-- What a `MeshBuffers.release` closure does when invoked: nothing for
JS-parsed buffers beyond marking the flag, and a guarded one-shot
`bridge.releaseBuffers(generation)` for foreign buffers. -/
inductive ReleaseTarget
  | js
  | foreign (generation : Nat)
deriving DecidableEq

/-- `MeshBuffers`: the views, the generation id, and which release
behaviour the embedded closure carries. -/
structure MeshBuffers where
  vertexView : List JsNum
  indexView : List Nat
  normalView : Option (List JsNum)
  generation : Int
  releaseTarget : ReleaseTarget
deriving DecidableEq

/-- The mutable state a `release` closure touches: its captured
`released` flag and the bridge's module state. -/
structure ReleaseState where
  released : Bool
  embind : EmbindState
deriving DecidableEq

/-- Invoking `buffers.release()`: the `toJsBuffers` closure only sets
the flag; the `toMeshBuffers` closure returns immediately when the flag
is already set and otherwise sets it and calls
`bridge.releaseBuffers(generation)`. -/
def applyRelease (b : MeshBuffers) (st : ReleaseState) : ReleaseState :=
  match b.releaseTarget with
  | .js => { st with released := true }
  | .foreign generation =>
    if st.released then st
    else { released := true, embind := releaseBuffers generation st.embind }

/-- `toJsBuffers`: wrap an in-process decode result; generation `-1`,
release is a flag-only no-op. -/
def toJsBuffers (result : JsParseResult) : MeshBuffers :=
  { vertexView := result.vertices,
    indexView := result.indices,
    normalView := none,
    generation := -1,
    releaseTarget := .js }

/-- `toMeshBuffers`: use the copied buffers registered for the
generation when present.  (The legacy branch reading raw WASM memory
through the dummy `WebAssembly.Memory` — reachable only from test
mocks that bypass the embind registration — carries no modelled
contents and yields empty views here.) -/
def toMeshBuffers (s : EmbindState) (pointers : MeshBufferPointers) : MeshBuffers :=
  match getBuffersForGeneration s pointers.generation with
  | some cached =>
    { vertexView := cached.vertices,
      indexView := cached.indices,
      normalView := cached.normals,
      generation := (pointers.generation : Int),
      releaseTarget := .foreign pointers.generation }
  | none =>
    { vertexView := [],
      indexView := [],
      normalView := none,
      generation := (pointers.generation : Int),
      releaseTarget := .foreign pointers.generation }

/-! ## Mesh loader (`mesh-loader.ts`) -/

/-- The decoder family selected by the router. -/
inductive ParserKind
  | js
  | wasm
deriving DecidableEq

/-- `ParseStrategy`. -/
structure ParseStrategy where
  parser : ParserKind
  format : MeshFormat
deriving DecidableEq

/-- `determineParseStrategy`: by lowercased extension; PLY decides the
sub-variant from the parsed header's `format` directive, STL re-checks
the ASCII signature against the full buffer, OBJ is always in-process,
anything else defaults to the foreign decoder with the hint format. -/
def determineParseStrategy (data : List Nat) (hintFormat : MeshFormat)
    (fileName : String) : ParseStrategy :=
  let ext := ((splitOnChar '.' (jsToLower fileName))).getLastD ""
  if ext = "ply" then
    match (parsePlyHeader data).format with
    | .ascii => ⟨.js, .ply_ascii⟩
    | .binary_little_endian => ⟨.wasm, .ply_binary_le⟩
    | .binary_big_endian => ⟨.wasm, .ply_binary_be⟩
  else if ext = "stl" then
    if isAsciiStl data then ⟨.js, .stl⟩ else ⟨.wasm, .stl_binary⟩
  else if ext = "obj" then ⟨.js, .obj⟩
  else ⟨.wasm, hintFormat⟩

/-- `parseWithJs`: dispatch to the in-process decoder for the format;
the throw of the unsupported-format branch (and the ASCII PLY
allocation failure) surfaces as `Except.error`. -/
def parseWithJs (data : List Nat) (format : MeshFormat) : Except String JsParseResult :=
  match format with
  | .ply_ascii => parseAsciiPly data
  | .stl => .ok (parseAsciiStl data)
  | .obj => .ok (parseObj data)
  | f => .error ("JS parser does not support format: " ++ formatString f)

/-- `inferFormat`: extension fallback used when no format hint is
given. -/
def inferFormat (fileName : String) : Option MeshFormat :=
  let lower := jsToLower fileName
  if strEndsWith lower ".obj" then some .obj
  else if strEndsWith lower ".stl" then some .stl
  else if strEndsWith lower ".ply" then some .ply_ascii
  else none

/-- The closed `AdapterErrorCode` set. -/
inductive AdapterErrorCode
  | E_EMPTY_FILE
  | E_FILE_TOO_LARGE
  | E_FILE_READ_FAILED
  | E_PARSE_FAILED
  | E_UNSUPPORTED_FORMAT
  | E_MEMORY_LIMIT
  | E_TOO_MANY_TRIANGLES
deriving DecidableEq

/-- `AdapterError` as the loader builds it (`severity` is the constant
`'error'`; the wall-clock timestamp and the per-kind context bag are
metadata with no control-flow influence and are not modelled). -/
structure AdapterError where
  code : AdapterErrorCode
  message : String
deriving DecidableEq

/-- Default `maxFileBytes`: 600 MiB.
Modelled from the spec: the constant `MAX_MESH_FILE_BYTES` lives in the
repository's `types` module, which is not part of the provided sources;
the spec fixes its default at 629,145,600 bytes. -/
def MAX_MESH_FILE_BYTES : Nat := 629145600

/-- Default `maxTriangleCount`.
Modelled from the spec: the constant `MAX_TRIANGLE_COUNT` lives in the
repository's `types` module, which is not part of the provided sources;
the spec fixes its default at 30,000,000 triangles. -/
def MAX_TRIANGLE_COUNT : Nat := 30000000

/-- The parser strictness tier reported in metrics. -/
inductive ParserMode
  | fast
  | exact
deriving DecidableEq

/-- `AdapterMetrics` (the wall-clock fields `parseTimeMs` /
`totalTimeMs` and the random `fileId` are side channels and are not
modelled). -/
structure AdapterMetrics where
  vertexCount : Nat
  triangleCount : Nat
  parserMode : ParserMode
  fallbackCount : Nat
  bytesRead : Nat
deriving DecidableEq

/-- Log severities. -/
inductive LogLevel
  | DEBUG
  | INFO
  | WARN
  | ERROR
deriving DecidableEq

/-- A log line as `loadMeshAsset` emits it (timestamp and context
metadata are not modelled). -/
structure LoadLog where
  level : LogLevel
  message : String
deriving DecidableEq

/-- `MeshStats` as far as the loader consumes it. -/
structure MeshStats where
  vertices : Nat
  triangles : Nat
deriving DecidableEq

/-- `MeshAsset` (identifier and wall-clock fields are not modelled). -/
structure MeshAsset where
  fileName : String
  fileSizeBytes : Nat
  format : MeshFormat
  buffers : MeshBuffers
  stats : Option MeshStats
deriving DecidableEq

/-- Load result status. -/
inductive LoadStatus
  | success
  | error
deriving DecidableEq

/-- `MeshLoadResult`. -/
structure MeshLoadResult where
  status : LoadStatus
  asset : Option MeshAsset
  error : Option AdapterError
  metrics : AdapterMetrics
  logs : List LoadLog

/-- The options `loadMeshAsset` consumes: the bridge (represented by
the WASM module's parse function behind `createEmbindBridge`), an
optional format hint, an optional stats calculator and the two guard
overrides. -/
structure MeshLoaderOptions where
  module : List Nat → EmbindParseResult
  formatHint : Option MeshFormat
  statsCalculator : Option (MeshBuffers → Option MeshStats)
  maxFileBytes : Option Nat
  maxTriangleCount : Option Nat

/-- String rendering of a parser kind (for the strategy log line). -/
def parserKindString (p : ParserKind) : String :=
  match p with
  | .js => "js"
  | .wasm => "wasm"

/-- `loadMeshAsset`: the guard / detect / route / decode / wrap
pipeline, threading the embind bridge state.  File reading is modelled
as already completed (`data` are the file's bytes, so `file.size` and
`arrayBuffer.byteLength` coincide); the `E_FILE_READ_FAILED` branch of
the source is thereby out of the modelled input space. -/
def loadMeshAsset (fileName : String) (data : List Nat) (options : MeshLoaderOptions)
    (s : EmbindState) : MeshLoadResult × EmbindState :=
  let fileSizeBytes := data.length
  let guardBytes := options.maxFileBytes.getD MAX_MESH_FILE_BYTES
  let guardTriangles := options.maxTriangleCount.getD MAX_TRIANGLE_COUNT
  let logs : List LoadLog := [⟨.DEBUG, "Starting mesh load: " ++ fileName⟩]
  let baseMetrics : AdapterMetrics :=
    { vertexCount := 0, triangleCount := 0, parserMode := .fast,
      fallbackCount := 0, bytesRead := fileSizeBytes }
  if fileSizeBytes ≤ 0 then
    let logs := logs ++ [⟨.ERROR, "Cannot load empty file."⟩]
    ({ status := .error, asset := none,
       error := some ⟨.E_EMPTY_FILE, "Cannot load empty file."⟩,
       metrics := baseMetrics, logs := logs }, s)
  else if guardBytes < fileSizeBytes then
    let logs := logs ++ [⟨.ERROR, "Asset size exceeds allowed limit."⟩]
    ({ status := .error, asset := none,
       error := some ⟨.E_FILE_TOO_LARGE, "Asset size exceeds allowed limit."⟩,
       metrics := baseMetrics, logs := logs }, s)
  else
    match options.formatHint.orElse (fun _ => inferFormat fileName) with
    | none =>
      let message := "Unrecognized file extension: " ++ fileName
      let logs := logs ++ [⟨.ERROR, message⟩]
      ({ status := .error, asset := none,
         error := some ⟨.E_UNSUPPORTED_FORMAT, message⟩,
         metrics := baseMetrics, logs := logs }, s)
    | some format =>
      let parseStrategy := determineParseStrategy data format fileName
      let logs := logs ++
        [⟨.DEBUG, "Parser strategy determined: " ++ parserKindString parseStrategy.parser ++
            " (" ++ formatString parseStrategy.format ++ ")"⟩]
      match parseStrategy.parser with
      | .js =>
        match parseWithJs data parseStrategy.format with
        | .error msg =>
          let message := "JS parsing failed: " ++ msg
          let logs := logs ++ [⟨.ERROR, message⟩]
          ({ status := .error, asset := none,
             error := some ⟨.E_PARSE_FAILED, message⟩,
             metrics := baseMetrics, logs := logs }, s)
        | .ok jsResult =>
          let triangleCount := jsResult.faceCount
          let vertexCount := jsResult.vertices.length / 3
          if guardTriangles < triangleCount then
            let logs := logs ++ [⟨.ERROR, "Triangle count exceeds allowed limit."⟩]
            ({ status := .error, asset := none,
               error := some ⟨.E_TOO_MANY_TRIANGLES, "Triangle count exceeds allowed limit."⟩,
               metrics := { baseMetrics with
                 triangleCount := triangleCount, vertexCount := vertexCount },
               logs := logs }, s)
          else
            let buffers := toJsBuffers jsResult
            let asset : MeshAsset :=
              { fileName := fileName, fileSizeBytes := fileSizeBytes,
                format := parseStrategy.format, buffers := buffers,
                stats := (options.statsCalculator.map (fun f => f buffers)).getD none }
            let logs := logs ++
              [⟨.INFO, "Mesh load complete: " ++ toString triangleCount ++ " triangles, " ++
                  toString vertexCount ++ " vertices"⟩]
            ({ status := .success, asset := some asset, error := none,
               metrics := { vertexCount := vertexCount, triangleCount := triangleCount,
                            parserMode := .fast, fallbackCount := 0,
                            bytesRead := data.length },
               logs := logs }, s)
      | .wasm =>
        match bridgeParseMesh options.module data s with
        | (.error msg, s1) =>
          let message := "WASM parsing failed: " ++ msg
          let logs := logs ++ [⟨.ERROR, message⟩]
          ({ status := .error, asset := none,
             error := some ⟨.E_PARSE_FAILED, message⟩,
             metrics := baseMetrics, logs := logs }, s1)
        | (.ok pointers, s1) =>
          let buffers := toMeshBuffers s1 pointers
          let triangleCount := pointers.indexCount / 3
          let vertexCount := pointers.vertexCount
          if guardTriangles < triangleCount then
            let rs := applyRelease buffers ⟨false, s1⟩
            let logs := logs ++ [⟨.ERROR, "Triangle count exceeds allowed limit."⟩]
            ({ status := .error, asset := none,
               error := some ⟨.E_TOO_MANY_TRIANGLES, "Triangle count exceeds allowed limit."⟩,
               metrics := { baseMetrics with
                 triangleCount := triangleCount, vertexCount := vertexCount },
               logs := logs }, rs.embind)
          else
            let asset : MeshAsset :=
              { fileName := fileName, fileSizeBytes := fileSizeBytes,
                format := parseStrategy.format, buffers := buffers,
                stats := (options.statsCalculator.map (fun f => f buffers)).getD none }
            let logs := logs ++
              [⟨.INFO, "Mesh load complete: " ++ toString triangleCount ++ " triangles, " ++
                  toString vertexCount ++ " vertices"⟩]
            ({ status := .success, asset := some asset, error := none,
               metrics := { vertexCount := vertexCount, triangleCount := triangleCount,
                            parserMode := .fast, fallbackCount := 0,
                            bytesRead := data.length },
               logs := logs }, s1)

/-! ## Log emitter ring buffer (`log-emitter`) -/

/-- `LogEmitter.maxBufferSize`. -/
def maxBufferSize : Nat := 1000

/-- The buffer manipulation of `LogEmitter.emit`: push the event, then
`shift()` the oldest entry off when the buffer exceeds
`maxBufferSize`.  (Delivery to subscribers, which never touches the
buffer, is independent of this step.) -/
def logEmitterEmit {α : Type} (logs : List α) (event : α) : List α :=
  let logs := logs ++ [event]
  if maxBufferSize < logs.length then logs.drop 1 else logs

/-- `LogEmitter.getLogs`: a copy of the retained buffer. -/
def logEmitterGetLogs {α : Type} (logs : List α) : List α :=
  logs

/-- The buffer contents after emitting a whole event sequence into a
fresh emitter. -/
def logBufferAfter {α : Type} (events : List α) : List α :=
  events.foldl logEmitterEmit []

/-! ## Shared-buffer watchdog (`shared-buffer-timeout`) -/

/-- `SHARED_BUFFER_TIMEOUT_MS`. -/
def SHARED_BUFFER_TIMEOUT_MS : Nat := 30000

/-- The lock monitor's mutable cell: whether `start` ran, whether the
one-shot timer is still pending, the `timedOut` flag, and how many
warning callbacks were issued. -/
structure MonitorState where
  started : Bool
  timerActive : Bool
  timedOut : Bool
  warningsEmitted : Nat
deriving DecidableEq

/-- A fresh monitor from `createSharedBufferLockMonitor`. -/
def monitorInit : MonitorState :=
  ⟨false, false, false, 0⟩

/-- `monitor.start()`: a second call is ignored; otherwise record the
start, clear `timedOut` and arm the one-shot timer. -/
def monitorStart (st : MonitorState) : MonitorState :=
  if st.started then st
  else { started := true, timerActive := true, timedOut := false,
         warningsEmitted := st.warningsEmitted }

/-- Expiry of the armed watchdog timer (the `setTimeout` callback): set
`timedOut`, emit the warning callback once, and disarm (a one-shot
timer).  It performs no other action — nothing is cancelled, retried
or altered. -/
def monitorFire (st : MonitorState) : MonitorState :=
  if st.timerActive then
    { st with
      timedOut := true
      timerActive := false
      warningsEmitted := st.warningsEmitted + 1 }
  else st

/-- `monitor.stop()`: clear the pending timer, touching nothing else. -/
def monitorStop (st : MonitorState) : MonitorState :=
  { st with timerActive := false }

/-- Result shape of `withSharedBufferTimeout`, instrumented with how
often the wrapped operation was invoked and how many watchdog warnings
fired (`elapsedMs`, a wall-clock reading, is not modelled). -/
structure TimeoutRunResult (α : Type) where
  value : α
  timedOut : Bool
  operationCalls : Nat
  warningsEmitted : Nat

/-- `withSharedBufferTimeout`: start the monitor, run the operation —
during which the environment's schedule decides whether the 30-second
watchdog expires first (`watchdogFires`) — then stop the monitor in
the `finally` block and return the operation's value together with the
monitor's `timedOut` flag. -/
def withSharedBufferTimeout {α : Type} (operation : Unit → α) (watchdogFires : Bool) :
    TimeoutRunResult α :=
  let st := monitorStart monitorInit
  let st := if watchdogFires then monitorFire st else st
  let value := operation ()
  let st := monitorStop st
  { value := value, timedOut := st.timedOut, operationCalls := 1,
    warningsEmitted := st.warningsEmitted }

/-! ## Fast→exact fallback orchestration (`MeshCoreAdapter.parseFile`) -/

/-- The stats fields `validateParsedMesh` inspects on a parsed asset. -/
structure ParsedStats where
  vertices : Nat
  triangles : Nat
deriving DecidableEq

/-- A parsed asset as the orchestrator sees it. -/
structure ParsedAsset where
  stats : Option ParsedStats
deriving DecidableEq

/-- `validateParsedMesh`: missing stats or zero vertices fail with
`'No vertices found'`, zero triangles with `'No triangles found'`;
`none` means valid. -/
def validateParsedMesh (asset : ParsedAsset) : Option String :=
  match asset.stats with
  | none => some "No vertices found"
  | some stats =>
    if stats.vertices = 0 then some "No vertices found"
    else if stats.triangles = 0 then some "No triangles found"
    else none

/-- The observable outcome of `parseFile`, instrumented with the number
of exact-mode attempts and of `metrics.recordFallback` calls. -/
structure ParseFileResult where
  success : Bool
  asset : Option ParsedAsset
  error : Option String
  parserMode : ParserMode
  fallbackOccurred : Bool
  exactAttempts : Nat
  fallbackRecorded : Nat
deriving DecidableEq

/-- The exact-mode fallback block of `parseFile`: record the fallback,
attempt exact mode once; its success is returned unvalidated, its
failure yields the terminal composite error message built from the
exact attempt's message. -/
def parseFileExactBlock (attempt : ParserMode → Except String ParsedAsset) :
    ParseFileResult :=
  match attempt .exact with
  | .ok asset =>
    { success := true, asset := some asset, error := none, parserMode := .exact,
      fallbackOccurred := true, exactAttempts := 1, fallbackRecorded := 1 }
  | .error exactMsg =>
    { success := false, asset := none,
      error := some ("Both Fast and Exact parsing failed. Last error: " ++ exactMsg),
      parserMode := .exact, fallbackOccurred := true, exactAttempts := 1,
      fallbackRecorded := 1 }

/-- `parseFile`: try fast mode; a thrown fast attempt or a structurally
invalid fast result falls back to exact mode exactly once when fallback
is enabled, and terminates with the fast-path error otherwise.  The
decode attempts themselves (`parseWithMode`) enter as the function
`attempt`, a thrown attempt being `Except.error` with the exception
message. -/
def parseFile (attempt : ParserMode → Except String ParsedAsset)
    (enableFallback : Bool) : ParseFileResult :=
  match attempt .fast with
  | .ok asset =>
    match validateParsedMesh asset with
    | none =>
      { success := true, asset := some asset, error := none, parserMode := .fast,
        fallbackOccurred := false, exactAttempts := 0, fallbackRecorded := 0 }
    | some reason =>
      if ¬ enableFallback then
        { success := false, asset := none,
          error := some ("Fast mode validation failed: " ++ reason),
          parserMode := .fast, fallbackOccurred := false, exactAttempts := 0,
          fallbackRecorded := 0 }
      else parseFileExactBlock attempt
  | .error fastMsg =>
    if ¬ enableFallback then
      { success := false, asset := none, error := some fastMsg, parserMode := .fast,
        fallbackOccurred := false, exactAttempts := 0, fallbackRecorded := 0 }
    else parseFileExactBlock attempt

/-! ## Shared helper definitions and lemmas for the theorems -/

/-- ASCII text as its byte list (inputs for concrete runs). -/
def asciiBytes (s : String) : List Nat :=
  s.data.map Char.toNat

/-- A foreign module whose parse entry always reports failure (loads
that never reach the foreign decoder can use it as the bridge). -/
def nullModule : List Nat → EmbindParseResult :=
  fun _ => ⟨false, "", 0, 0, none, none, none⟩

/-- Loader options with every optional field absent. -/
def defaultOptions : MeshLoaderOptions :=
  ⟨nullModule, none, none, none, none⟩

/-- Boolean success test for an `Except`. -/
def exceptIsOk {ε α : Type} (e : Except ε α) : Bool :=
  match e with
  | .ok _ => true
  | .error _ => false

/-- Deleting a generation removes its registration: looking the key up
afterwards finds nothing. -/
theorem lookup_deleteGeneration (l : List (Nat × PendingBuffers)) (g : Nat) :
    lookupGeneration (deleteGeneration l g) g = none := by
  induction l with
  | nil => rfl
  | cons e l ih =>
    by_cases he : e.1 = g
    · have ih' := ih
      simp only [deleteGeneration] at ih'
      simp only [deleteGeneration, List.filter_cons, he]
      simp at ih' ⊢
      exact ih'
    · simp only [deleteGeneration, lookupGeneration, List.filter_cons, List.find?_cons]
      simp [he]

/-- Deleting a generation that is not registered leaves the table
unchanged. -/
theorem deleteGeneration_of_lookup_none (l : List (Nat × PendingBuffers)) (g : Nat)
    (h : lookupGeneration l g = none) : deleteGeneration l g = l := by
  induction l with
  | nil => rfl
  | cons e l ih =>
    by_cases he : e.1 = g
    · exfalso
      simp [lookupGeneration, List.find?_cons, he] at h
    · have h' : lookupGeneration l g = none := by
        simpa [lookupGeneration, List.find?_cons, he] using h
      simp [deleteGeneration, List.filter_cons, he] at *
      exact ih h'

/-- One release is a fixed point of releasing again. -/
theorem applyRelease_idem (b : MeshBuffers) (st : ReleaseState) :
    applyRelease b (applyRelease b st) = applyRelease b st := by
  cases hb : b.releaseTarget with
  | js => simp [applyRelease, hb]
  | foreign g =>
    by_cases hr : st.released <;> simp [applyRelease, hb, hr]

/-! ## Claim theorems -/

/-- C6: `release` is idempotent and total.  Every release path is a
total function of the explicit state (nothing throws); invoking a
buffer's release `n + 1` times leaves exactly the state of one
invocation, so the foreign-side registration is deleted at most once;
and the bridge-level `releaseBuffers` against a generation with no
registration (unknown or already released) is a no-op. -/
theorem release_idempotent_total (b : MeshBuffers) (st : ReleaseState) (n : Nat)
    (g : Nat) (hunknown : lookupGeneration st.embind.pending g = none) :
    (applyRelease b)^[n + 1] st = applyRelease b st ∧
    releaseBuffers g st.embind = st.embind := by
  constructor
  · calc (applyRelease b)^[n + 1] st
        = (applyRelease b)^[n] (applyRelease b st) := Function.iterate_succ_apply _ _ _
      _ = applyRelease b st := Function.iterate_fixed (applyRelease_idem b st) n
  · have h := deleteGeneration_of_lookup_none st.embind.pending g hunknown
    simp [releaseBuffers, h]

/-- C6 witness: three releases of a foreign buffer equal one, and
releasing generation 7 against an empty table changes nothing. -/
theorem release_idempotent_total_witness :
    (applyRelease ⟨[], [], none, 1, .foreign 1⟩)^[3] ⟨false, ⟨4, []⟩⟩ =
      applyRelease ⟨[], [], none, 1, .foreign 1⟩ ⟨false, ⟨4, []⟩⟩ ∧
    releaseBuffers 7 ⟨4, []⟩ = ⟨4, []⟩ :=
  release_idempotent_total ⟨[], [], none, 1, .foreign 1⟩ ⟨false, ⟨4, []⟩⟩ 2 7 (by decide)

/-- C7: watchdog expiry is purely diagnostic.  Whether or not the
30-second watchdog fires during a monitored call, the wrapped
operation is invoked exactly once and its result is returned
unchanged; the only observable difference is one warning emission and
the `timedOut` flag recording that the watchdog fired. -/
theorem watchdog_diagnostic_only {α : Type} (operation : Unit → α) (watchdogFires : Bool) :
    (withSharedBufferTimeout operation watchdogFires).value = operation () ∧
    (withSharedBufferTimeout operation watchdogFires).operationCalls = 1 ∧
    (withSharedBufferTimeout operation watchdogFires).timedOut = watchdogFires ∧
    (withSharedBufferTimeout operation watchdogFires).warningsEmitted =
      (if watchdogFires then 1 else 0) := by
  cases watchdogFires <;>
    simp [withSharedBufferTimeout, monitorStart, monitorInit, monitorFire, monitorStop]

/-- The log buffer fold over an event list: starting from any buffer
within capacity, the retained buffer is the suffix of the accumulated
history that fits the capacity. -/
theorem logEmitterFoldDrop {α : Type} (es : List α) : ∀ l : List α,
    l.length ≤ maxBufferSize →
    List.foldl logEmitterEmit l es =
      (l ++ es).drop (l.length + es.length - maxBufferSize) := by
  induction es with
  | nil =>
    intro l hl
    simp [Nat.sub_eq_zero_of_le hl]
  | cons e es ih =>
    intro l hl
    rw [List.foldl_cons]
    by_cases hc : maxBufferSize < l.length + 1
    · have hlen : l.length = maxBufferSize := by omega
      have hstep : logEmitterEmit l e = (l ++ [e]).drop 1 := by
        simp only [logEmitterEmit]
        rw [if_pos (by simp only [List.length_append, List.length_cons, List.length_nil]; omega)]
      rw [hstep, ih _ (by simp only [List.length_drop, List.length_append,
        List.length_cons, List.length_nil]; omega)]
      have h1 : (1 : Nat) ≤ (l ++ [e]).length := by
        simp only [List.length_append, List.length_cons, List.length_nil]
        omega
      have hsplit : (l ++ [e]).drop 1 ++ es = (l ++ e :: es).drop 1 := by
        rw [← List.drop_append_of_le_length h1, List.append_assoc, List.singleton_append]
      rw [hsplit, List.drop_drop]
      exact congrArg (fun n => (l ++ e :: es).drop n)
        (by simp only [List.length_drop, List.length_append, List.length_cons,
          List.length_nil]; omega)
    · have hstep : logEmitterEmit l e = l ++ [e] := by
        simp only [logEmitterEmit]
        rw [if_neg (by simp only [List.length_append, List.length_cons, List.length_nil]; omega)]
      rw [hstep, ih _ (by simp only [List.length_append, List.length_cons,
        List.length_nil]; omega)]
      rw [List.append_assoc, List.singleton_append]
      exact congrArg (fun n => (l ++ e :: es).drop n)
        (by simp only [List.length_append, List.length_cons, List.length_nil]; omega)

/-- C8: the observability buffer is a bounded ring.  After any emitted
event sequence, the retained buffer (as `getLogs` exposes it) is
exactly the most recent `maxBufferSize`-bounded suffix of the emission
history, in emission order, and never holds more than 1000 events. -/
theorem log_buffer_bounded_most_recent {α : Type} (events : List α) :
    logEmitterGetLogs (logBufferAfter events) =
      events.drop (events.length - maxBufferSize) ∧
    (logBufferAfter events).length ≤ maxBufferSize := by
  have h := logEmitterFoldDrop events [] (by simp)
  simp at h
  constructor
  · simpa [logEmitterGetLogs, logBufferAfter] using h
  · have : (logBufferAfter events).length = (events.drop (events.length - maxBufferSize)).length := by
      rw [show logBufferAfter events = events.drop (events.length - maxBufferSize) from h]
    rw [this, List.length_drop]
    omega

/-- C9: the worked axis-plane example.  For `axis = y`, position 50 %,
no flip, against the box from `(-5,-5,-5)` to `(5,5,5)`, the clipping
plane has normal `(0,1,0)` and plane constant 0, and the slice plane
built by `computeSlicePlane` (position expressed in its 0–1 range) has
normal `(0,1,0)` and signed distance 0. -/
theorem axis_plane_example_y50 :
    computeClippingPlane ⟨true, .y, 50, false⟩ ⟨⟨-5, -5, -5⟩, ⟨5, 5, 5⟩⟩ =
      ⟨⟨0, 1, 0⟩, 0⟩ ∧
    computeSlicePlane .y (1 / 2) false ⟨⟨-5, -5, -5⟩, ⟨5, 5, 5⟩⟩ = ⟨⟨0, 1, 0⟩, 0⟩ := by
  constructor
  · simp only [computeClippingPlane, getAxisValue]
    norm_num
    try decide
  · simp only [computeSlicePlane, createAxisPlane, getAxisValue]
    norm_num
    try decide

/-- C10: flipping negates the plane without moving it.  For every
clipping state and bounding box, the plane computed with
`flipped = true` has the negated normal and negated constant of the
`flipped = false` plane, and the two planes contain exactly the same
points. -/
theorem flipped_plane_negation (axis : ClippingAxis) (position : ℚ) (enabled : Bool)
    (bbox : BoundingBox) :
    (computeClippingPlane ⟨enabled, axis, position, true⟩ bbox).normal =
      (computeClippingPlane ⟨enabled, axis, position, false⟩ bbox).normal.neg ∧
    (computeClippingPlane ⟨enabled, axis, position, true⟩ bbox).constant =
      -(computeClippingPlane ⟨enabled, axis, position, false⟩ bbox).constant ∧
    ∀ v : Vec3,
      (computeClippingPlane ⟨enabled, axis, position, true⟩ bbox).contains v ↔
      (computeClippingPlane ⟨enabled, axis, position, false⟩ bbox).contains v := by
  refine ⟨?_, ?_, ?_⟩
  · cases axis <;>
      simp [computeClippingPlane, Vec3.neg, getAxisValue]
  · cases axis <;>
      simp [computeClippingPlane, getAxisValue]
  · intro v
    cases axis <;>
      simp [computeClippingPlane, Vec3.neg, ThreePlane.contains, Vec3.dot, getAxisValue] <;>
      constructor <;> intro h <;> linarith

/-- A fast attempt that fails in either of the two ways the
orchestrator recognises: by throwing, or by returning a result the
structural check rejects. -/
def FastAttemptFails (attempt : ParserMode → Except String ParsedAsset) : Prop :=
  match attempt .fast with
  | .error _ => True
  | .ok a => validateParsedMesh a ≠ none

/-- The decode attempts of the C1 counterexample: fast throws
`"alpha"`, exact throws `"omega"`. -/
def c1Attempt : ParserMode → Except String ParsedAsset :=
  fun m =>
    match m with
    | .fast => .error "alpha"
    | .exact => .error "omega"

/-- C1 counterexample: with fallback enabled, a fast attempt throwing
`"alpha"` and an exact attempt throwing `"omega"` drive exactly one
exact attempt, but the surfaced composite error is built from the
exact message alone — the fast attempt's failure reason `"alpha"` is
not referenced in it, refuting the claim that the error message
references both attempts' failure reasons. -/
theorem fallback_error_counterexample :
    (parseFile c1Attempt true).exactAttempts = 1 ∧
    (parseFile c1Attempt true).error =
      some "Both Fast and Exact parsing failed. Last error: omega" ∧
    jsIncludes "Both Fast and Exact parsing failed. Last error: omega" "alpha" = false := by
  decide

/-- C1 (amended): whenever the fast attempt fails (by throwing or by
failing the structural check) and fallback is enabled, the exact
attempt runs exactly once, the fallback is recorded, and if the exact
attempt also fails, the surfaced error message states that both
attempts failed and embeds the exact attempt's failure reason (the
fast attempt's reason is logged but not embedded). -/
theorem fallback_exact_once_composite_error
    (attempt : ParserMode → Except String ParsedAsset)
    (hfail : FastAttemptFails attempt) :
    (parseFile attempt true).exactAttempts = 1 ∧
    (parseFile attempt true).fallbackOccurred = true ∧
    (parseFile attempt true).fallbackRecorded = 1 ∧
    ∀ m, attempt .exact = .error m →
      (parseFile attempt true).error =
        some ("Both Fast and Exact parsing failed. Last error: " ++ m) := by
  have hexact : ∀ h : ParseFileResult, h = parseFileExactBlock attempt →
      h.exactAttempts = 1 ∧ h.fallbackOccurred = true ∧ h.fallbackRecorded = 1 ∧
      ∀ m, attempt .exact = .error m →
        h.error = some ("Both Fast and Exact parsing failed. Last error: " ++ m) := by
    intro h hh
    subst hh
    unfold parseFileExactBlock
    cases he : attempt .exact with
    | ok a => simp [he]
    | error m => simp [he]
  unfold FastAttemptFails at hfail
  cases hf : attempt .fast with
  | ok a =>
    rw [hf] at hfail
    cases hv : validateParsedMesh a with
    | none => exact absurd hv hfail
    | some reason =>
      have : parseFile attempt true = parseFileExactBlock attempt := by
        unfold parseFile
        rw [hf]
        simp [hv]
      exact hexact _ this
  | error fastMsg =>
    have : parseFile attempt true = parseFileExactBlock attempt := by
      unfold parseFile
      rw [hf]
      simp
    exact hexact _ this

/-- C1 witness: the amended theorem applied to the concrete attempts
of the counterexample. -/
theorem fallback_exact_once_composite_error_witness :
    (parseFile c1Attempt true).exactAttempts = 1 ∧
    (parseFile c1Attempt true).error =
      some ("Both Fast and Exact parsing failed. Last error: " ++ "omega") := by
  have h := fallback_exact_once_composite_error c1Attempt (by trivial)
  exact ⟨h.1, h.2.2.2 "omega" rfl⟩

/-- Whenever the magic-byte classifier recognises the header, the
detector reports that format with method `magic`, whatever the
extension or MIME type contribute. -/
theorem detectMeshFormat_of_magic (file : FileModel) (mf : MeshFormat)
    (h : detectByMagicBytes (file.data.take (min 256 file.size)) = some mf) :
    (detectMeshFormat file).format = some mf ∧
    (detectMeshFormat file).method = DetectionMethod.magic := by
  unfold detectMeshFormat
  dsimp only
  rw [h]
  cases hext : detectByExtension file.name with
  | none => simp
  | some ef =>
    by_cases hfam : isSameFormatFamily ef mf = true <;> simp [hfam]

/-- C3: a binary-little-endian PLY payload — bytes starting with the
`ply` magic followed by a newline byte (LF or CR), with the
`format binary_little_endian` directive inside the inspected header
(the first `min 256 size` bytes) — always detects as `ply_binary_le`
with method `magic`, for every file name and MIME type. -/
theorem ply_binary_le_magic_detection (name mime : String) (b3 : Nat) (rest : List Nat)
    (hb3 : b3 = 0x0A ∨ b3 = 0x0D)
    (hdir : jsIncludes
        (jsToLower (decodeAscii ((0x70 :: 0x6C :: 0x79 :: b3 :: rest).take
          (min 256 (0x70 :: 0x6C :: 0x79 :: b3 :: rest : List Nat).length))))
        "format binary_little_endian" = true) :
    (detectMeshFormat ⟨name, mime, 0x70 :: 0x6C :: 0x79 :: b3 :: rest⟩).format =
      some MeshFormat.ply_binary_le ∧
    (detectMeshFormat ⟨name, mime, 0x70 :: 0x6C :: 0x79 :: b3 :: rest⟩).method =
      DetectionMethod.magic := by
  have hmin : min 256 ((0x70 :: 0x6C :: 0x79 :: b3 :: rest : List Nat).length) =
      min 252 rest.length + 4 := by
    simp only [List.length_cons]
    omega
  have hheader : (0x70 :: 0x6C :: 0x79 :: b3 :: rest : List Nat).take
      (min 256 (0x70 :: 0x6C :: 0x79 :: b3 :: rest : List Nat).length) =
      0x70 :: 0x6C :: 0x79 :: b3 :: rest.take (min 252 rest.length) := by
    rw [hmin]
    rw [List.take_succ_cons, List.take_succ_cons, List.take_succ_cons, List.take_succ_cons]
  rw [hheader] at hdir
  have hsub : detectPlySubformat (0x70 :: 0x6C :: 0x79 :: b3 :: rest.take (min 252 rest.length)) =
      MeshFormat.ply_binary_le := by
    unfold detectPlySubformat
    rw [if_pos hdir]
  have hmagic : detectByMagicBytes (0x70 :: 0x6C :: 0x79 :: b3 :: rest.take (min 252 rest.length)) =
      some MeshFormat.ply_binary_le := by
    unfold detectByMagicBytes
    rw [if_neg (by simp only [List.length_cons]; omega)]
    rw [if_pos ⟨rfl, rfl, rfl, hb3⟩]
    rw [hsub]
  refine detectMeshFormat_of_magic ⟨name, mime, 0x70 :: 0x6C :: 0x79 :: b3 :: rest⟩ _ ?_
  show detectByMagicBytes _ = _
  rw [show (FileModel.mk name mime (0x70 :: 0x6C :: 0x79 :: b3 :: rest)).size =
    (0x70 :: 0x6C :: 0x79 :: b3 :: rest : List Nat).length from rfl]
  rw [hheader, hmagic]

/-- C3 witness: a binary-little-endian PLY header saved under the name
`model.txt` with an empty MIME type. -/
theorem ply_binary_le_magic_detection_witness :
    (detectMeshFormat ⟨"model.txt", "", 0x70 :: 0x6C :: 0x79 :: 0x0A ::
        asciiBytes "format binary_little_endian 1.0\nelement vertex 1\nend_header\n"⟩).format =
      some MeshFormat.ply_binary_le ∧
    (detectMeshFormat ⟨"model.txt", "", 0x70 :: 0x6C :: 0x79 :: 0x0A ::
        asciiBytes "format binary_little_endian 1.0\nelement vertex 1\nend_header\n"⟩).method =
      DetectionMethod.magic :=
  ply_binary_le_magic_detection "model.txt" "" 0x0A
    (asciiBytes "format binary_little_endian 1.0\nelement vertex 1\nend_header\n")
    (Or.inl rfl) (by decide)

/-- Foreign-path buffers always carry the foreign release closure for
their generation, whether or not the copied buffers are found in the
registration table. -/
theorem toMeshBuffers_releaseTarget (st : EmbindState) (p : MeshBufferPointers) :
    (toMeshBuffers st p).releaseTarget = ReleaseTarget.foreign p.generation := by
  unfold toMeshBuffers
  cases getBuffersForGeneration st p.generation <;> rfl

/-- A first release of foreign-path buffers triggers the bridge-level
`releaseBuffers` for their generation. -/
theorem applyRelease_toMeshBuffers (st : EmbindState) (p : MeshBufferPointers) :
    applyRelease (toMeshBuffers st p) ⟨false, st⟩ =
      ⟨true, releaseBuffers p.generation st⟩ := by
  unfold applyRelease
  rw [toMeshBuffers_releaseTarget st p]
  simp

/-- Step 4 of `MeshCoreAdapter.load` (the stats-based post-parse
triangle guard): a successfully parsed asset whose `stats.triangles`
exceeds `MAX_TRIANGLE_COUNT` becomes the `E_TOO_MANY_TRIANGLES` error
built by `createTooManyTrianglesError`, and no asset is returned; the
check is skipped when the asset carries no stats. -/
def adapterTriangleGuard (asset : ParsedAsset) : Except AdapterError ParsedAsset :=
  match asset.stats with
  | some stats =>
    if MAX_TRIANGLE_COUNT < stats.triangles then
      .error ⟨.E_TOO_MANY_TRIANGLES,
        "Triangle count exceeds limit: " ++ toString stats.triangles ++ " > " ++
          toString MAX_TRIANGLE_COUNT⟩
    else .ok asset
  | none => .ok asset

/-- C2: a decoded triangle count beyond the configured maximum is a
hard stop on every route.  (a) On the in-process route, a decode whose
`faceCount` exceeds `maxTriangleCount` returns `E_TOO_MANY_TRIANGLES`
with no asset, and the bridge state is untouched (no foreign buffers
were ever allocated, so there is nothing to release).  (b) On the
foreign (WASM) route, a successful module decode whose triangle count
(`indexCount / 3`) exceeds the limit returns the same error with no
asset, and the buffers the decode had just registered are released
before the error is returned: the new generation is absent from the
final registration table, which equals the original table with that
generation deleted.  (c) The stats-based guard of
`MeshCoreAdapter.load` likewise turns any parsed asset whose
`stats.triangles` exceeds `MAX_TRIANGLE_COUNT` into the
`E_TOO_MANY_TRIANGLES` error, returning no asset. -/
theorem too_many_triangles_hard_stop (fileName : String) (data : List Nat)
    (options : MeshLoaderOptions) (s : EmbindState) (fmt : MeshFormat)
    (hpos : 0 < data.length)
    (hsize : data.length ≤ options.maxFileBytes.getD MAX_MESH_FILE_BYTES)
    (hfmt : options.formatHint.orElse (fun _ => inferFormat fileName) = some fmt) :
    (∀ f r, determineParseStrategy data fmt fileName = ⟨.js, f⟩ →
      parseWithJs data f = .ok r →
      options.maxTriangleCount.getD MAX_TRIANGLE_COUNT < r.faceCount →
      (loadMeshAsset fileName data options s).1.status = .error ∧
      (loadMeshAsset fileName data options s).1.error =
        some ⟨.E_TOO_MANY_TRIANGLES, "Triangle count exceeds allowed limit."⟩ ∧
      (loadMeshAsset fileName data options s).1.asset = none ∧
      (loadMeshAsset fileName data options s).2 = s) ∧
    (∀ cf, determineParseStrategy data fmt fileName = ⟨.wasm, cf⟩ →
      (options.module data).success = true →
      options.maxTriangleCount.getD MAX_TRIANGLE_COUNT <
        ((options.module data).indices.getD []).length / 3 →
      (loadMeshAsset fileName data options s).1.status = .error ∧
      (loadMeshAsset fileName data options s).1.error =
        some ⟨.E_TOO_MANY_TRIANGLES, "Triangle count exceeds allowed limit."⟩ ∧
      (loadMeshAsset fileName data options s).1.asset = none ∧
      (loadMeshAsset fileName data options s).2.generationCounter = s.generationCounter + 1 ∧
      (loadMeshAsset fileName data options s).2.pending =
        deleteGeneration s.pending (s.generationCounter + 1) ∧
      getBuffersForGeneration (loadMeshAsset fileName data options s).2
        (s.generationCounter + 1) = none) ∧
    (∀ (a : ParsedAsset) (stats : ParsedStats), a.stats = some stats →
      MAX_TRIANGLE_COUNT < stats.triangles →
      adapterTriangleGuard a =
        .error ⟨.E_TOO_MANY_TRIANGLES,
          "Triangle count exceeds limit: " ++ toString stats.triangles ++ " > " ++
            toString MAX_TRIANGLE_COUNT⟩) := by
  have hnempty : ¬ data.length ≤ 0 := by omega
  have hnsize : ¬ options.maxFileBytes.getD MAX_MESH_FILE_BYTES < data.length := by omega
  refine ⟨?_, ?_, ?_⟩
  · intro f r hstrat hok htri
    have hmain : loadMeshAsset fileName data options s =
        ({ status := .error, asset := none,
           error := some ⟨.E_TOO_MANY_TRIANGLES, "Triangle count exceeds allowed limit."⟩,
           metrics := { vertexCount := r.vertices.length / 3, triangleCount := r.faceCount,
                        parserMode := .fast, fallbackCount := 0, bytesRead := data.length },
           logs := [⟨.DEBUG, "Starting mesh load: " ++ fileName⟩,
                    ⟨.DEBUG, "Parser strategy determined: " ++ parserKindString .js ++
                      " (" ++ formatString f ++ ")"⟩,
                    ⟨.ERROR, "Triangle count exceeds allowed limit."⟩] }, s) := by
      unfold loadMeshAsset
      dsimp only
      rw [if_neg hnempty, if_neg hnsize, hfmt]
      dsimp only
      rw [hstrat]
      dsimp only
      rw [hok]
      dsimp only
      rw [if_pos htri]
      rfl
    refine ⟨?_, ?_, ?_, ?_⟩ <;> rw [hmain]
  · intro cf hstrat hsucc htri
    have hbridge : bridgeParseMesh options.module data s =
        (Except.ok ⟨0, ((options.module data).vertices.getD []).length, 0,
            ((options.module data).indices.getD []).length,
            ((options.module data).normals).map (fun _ => 0),
            ((options.module data).normals).map List.length,
            s.generationCounter + 1⟩,
          ⟨s.generationCounter + 1,
            s.pending ++ [(s.generationCounter + 1,
              ⟨s.generationCounter + 1, (options.module data).vertices.getD [],
                (options.module data).indices.getD [],
                (options.module data).normals⟩)]⟩) := by
      unfold bridgeParseMesh
      dsimp only
      rw [if_neg (by simp [hsucc])]
    have hmain : loadMeshAsset fileName data options s =
        ({ status := .error, asset := none,
           error := some ⟨.E_TOO_MANY_TRIANGLES, "Triangle count exceeds allowed limit."⟩,
           metrics := { vertexCount := ((options.module data).vertices.getD []).length,
                        triangleCount := ((options.module data).indices.getD []).length / 3,
                        parserMode := .fast, fallbackCount := 0, bytesRead := data.length },
           logs := [⟨.DEBUG, "Starting mesh load: " ++ fileName⟩,
                    ⟨.DEBUG, "Parser strategy determined: " ++ parserKindString .wasm ++
                      " (" ++ formatString cf ++ ")"⟩,
                    ⟨.ERROR, "Triangle count exceeds allowed limit."⟩] },
         ⟨s.generationCounter + 1,
          deleteGeneration
            (s.pending ++ [(s.generationCounter + 1,
              ⟨s.generationCounter + 1, (options.module data).vertices.getD [],
                (options.module data).indices.getD [],
                (options.module data).normals⟩)])
            (s.generationCounter + 1)⟩) := by
      unfold loadMeshAsset
      dsimp only
      rw [if_neg hnempty, if_neg hnsize, hfmt]
      dsimp only
      rw [hstrat]
      dsimp only
      rw [hbridge]
      dsimp only
      rw [if_pos htri, applyRelease_toMeshBuffers]
      dsimp only
      unfold releaseBuffers
      rfl
    refine ⟨?_, ?_, ?_, ?_, ?_, ?_⟩
    · rw [hmain]
    · rw [hmain]
    · rw [hmain]
    · rw [hmain]
    · rw [hmain]
      show deleteGeneration _ _ = _
      simp [deleteGeneration, List.filter_append]
    · rw [hmain]
      exact lookup_deleteGeneration _ _
  · intro a stats hstats htri
    unfold adapterTriangleGuard
    rw [hstats]
    dsimp only
    rw [if_pos htri]

/-- Bytes of a little-endian binary PLY header (payload truncated; the
foreign decode is exercised through the module below). -/
def c2Bytes : List Nat :=
  asciiBytes "ply\nformat binary_little_endian 1.0\nelement vertex 3\nelement face 2\nend_header\nXXXX"

/-- A foreign module reporting a successful decode with two triangles
(six indices). -/
def c2Module : List Nat → EmbindParseResult :=
  fun _ =>
    ⟨true, "", 3, 2,
     some [some 0, some 0, some 0, some 1, some 0, some 0, some 0, some 1, some 0],
     some [0, 1, 2, 0, 2, 1], none⟩

/-- Loader options driving the foreign route with `maxTriangleCount`
overridden to 1. -/
def c2Options : MeshLoaderOptions :=
  ⟨c2Module, none, none, none, some 1⟩

/-- A one-facet ASCII STL (under 84 bytes, so it routes in-process). -/
def tinyStl : List Nat :=
  asciiBytes "solid t\nvertex 0 0 0\nvertex 1 0 0\nvertex 0 1 0\nendfacet\nendsolid\n"

/-- Loader options driving the in-process route with
`maxTriangleCount` overridden to 0. -/
def c2JsOptions : MeshLoaderOptions :=
  ⟨nullModule, none, none, none, some 0⟩

/-- C2 witness: a one-triangle in-process STL decode against a limit
of zero is rejected with no asset and an untouched bridge state; the
two-triangle foreign decode against a limit of one is rejected with
the registered generation released again; and the adapter's
stats-based guard rejects a 30,000,001-triangle asset. -/
theorem too_many_triangles_hard_stop_witness :
    (loadMeshAsset "tiny.stl" tinyStl c2JsOptions ⟨0, []⟩).1.status = .error ∧
    (loadMeshAsset "tiny.stl" tinyStl c2JsOptions ⟨0, []⟩).1.error =
      some ⟨.E_TOO_MANY_TRIANGLES, "Triangle count exceeds allowed limit."⟩ ∧
    (loadMeshAsset "tiny.stl" tinyStl c2JsOptions ⟨0, []⟩).1.asset = none ∧
    (loadMeshAsset "tiny.stl" tinyStl c2JsOptions ⟨0, []⟩).2 = ⟨0, []⟩ ∧
    (loadMeshAsset "model.ply" c2Bytes c2Options ⟨5, []⟩).1.status = .error ∧
    (loadMeshAsset "model.ply" c2Bytes c2Options ⟨5, []⟩).1.error =
      some ⟨.E_TOO_MANY_TRIANGLES, "Triangle count exceeds allowed limit."⟩ ∧
    (loadMeshAsset "model.ply" c2Bytes c2Options ⟨5, []⟩).1.asset = none ∧
    (loadMeshAsset "model.ply" c2Bytes c2Options ⟨5, []⟩).2.generationCounter = 6 ∧
    (loadMeshAsset "model.ply" c2Bytes c2Options ⟨5, []⟩).2.pending =
      deleteGeneration [] 6 ∧
    getBuffersForGeneration (loadMeshAsset "model.ply" c2Bytes c2Options ⟨5, []⟩).2 6 = none ∧
    adapterTriangleGuard ⟨some ⟨10, 30000001⟩⟩ =
      .error ⟨.E_TOO_MANY_TRIANGLES,
        "Triangle count exceeds limit: " ++ toString (30000001 : Nat) ++ " > " ++
          toString MAX_TRIANGLE_COUNT⟩ := by
  have hjs := (too_many_triangles_hard_stop "tiny.stl" tinyStl c2JsOptions ⟨0, []⟩
    .stl (by decide) (by decide) (by decide)).1 .stl (parseAsciiStl tinyStl)
    (by decide) rfl (by decide)
  have hwasm := (too_many_triangles_hard_stop "model.ply" c2Bytes c2Options ⟨5, []⟩
    .ply_ascii (by decide) (by decide) (by decide)).2.1 .ply_binary_le
    (by decide) rfl (by decide)
  have hguard := (too_many_triangles_hard_stop "model.ply" c2Bytes c2Options ⟨5, []⟩
    .ply_ascii (by decide) (by decide) (by decide)).2.2 ⟨some ⟨10, 30000001⟩⟩
    ⟨10, 30000001⟩ rfl (by decide)
  exact ⟨hjs.1, hjs.2.1, hjs.2.2.1, hjs.2.2.2, hwasm.1, hwasm.2.1, hwasm.2.2.1,
    hwasm.2.2.2.1, hwasm.2.2.2.2.1, hwasm.2.2.2.2.2, hguard⟩

/-- The malformed-token probe: an ASCII STL whose first vertex line is
`vertex a b c`. -/
def c4Bytes : List Nat :=
  asciiBytes "solid b\nfacet normal 0 0 1\nouter loop\nvertex a b c\nvertex 0 1 0\nvertex 1 0 0\nendloop\nendfacet\nendsolid b\n"

/-- C4 counterexample: the claim demands that a malformed numeric
token in a vertex position propagate as a decode failure surfaced to
the fallback orchestrator.  On this input the in-process STL decoder
returns a normal result (no failure), the malformed tokens have been
coerced to NaN coordinates, and the whole load reports success with no
error — no fast-path failure ever reaches the orchestrator. -/
theorem malformed_token_no_failure_counterexample :
    exceptIsOk (parseWithJs c4Bytes .stl) = true ∧
    (parseAsciiStl c4Bytes).vertices.take 3 = [none, none, none] ∧
    (loadMeshAsset "bad.stl" c4Bytes defaultOptions ⟨0, []⟩).1.status = .success ∧
    (loadMeshAsset "bad.stl" c4Bytes defaultOptions ⟨0, []⟩).1.error = none := by
  decide

/-- C4 (amended): malformed numeric tokens are silently coerced, not
propagated, by every in-process decoder.  In each of the three
decoders' vertex paths — the ASCII STL `vertex` scan line, the OBJ `v`
scan line, and the ASCII PLY vertex loop — a line whose coordinate
token fails to parse stores a NaN marker and scanning continues
without any failure signal; and on the concrete malformed STL input
the whole load completes as a fast-path success (no fallback, no
error), with the NaN coordinates in the returned buffers. -/
theorem malformed_token_coerced_to_nan :
    (∀ (st : StlScanState) (line : String),
      strStartsWith (jsTrim line) "vertex " = true →
      jsParseFloat ((splitWs (jsTrim line)).getD 1 "") = none →
      stlScanLine st line =
        { st with revVertices :=
            jsParseFloat ((splitWs (jsTrim line)).getD 3 "") ::
              jsParseFloat ((splitWs (jsTrim line)).getD 2 "") :: none :: st.revVertices }) ∧
    (∀ (st : ObjScanState) (line : String),
      ¬ (jsTrim line = "" ∨ strStartsWith (jsTrim line) "#" = true) →
      (splitWs (jsTrim line)).getD 0 "" = "v" →
      jsParseFloat ((splitWs (jsTrim line)).getD 1 "") = none →
      objScanLine st line =
        { st with revVertices :=
            jsParseFloat ((splitWs (jsTrim line)).getD 3 "") ::
              jsParseFloat ((splitWs (jsTrim line)).getD 2 "") :: none :: st.revVertices }) ∧
    (∀ (line : String) (rest : List String) (n : Nat) (acc : List JsNum),
      ¬ jsTrim line = "" →
      jsParseFloat ((splitWs (jsTrim line)).getD 0 "") = none →
      plyVertexLoop (line :: rest) (n + 1) acc =
        plyVertexLoop rest n
          (jsParseFloat ((splitWs (jsTrim line)).getD 2 "") ::
            jsParseFloat ((splitWs (jsTrim line)).getD 1 "") :: none :: acc)) ∧
    ((loadMeshAsset "bad.stl" c4Bytes defaultOptions ⟨0, []⟩).1.status = .success ∧
     ((loadMeshAsset "bad.stl" c4Bytes defaultOptions ⟨0, []⟩).1.asset.map
       (fun a => a.buffers.vertexView.take 3)) = some [none, none, none] ∧
     (loadMeshAsset "bad.stl" c4Bytes defaultOptions ⟨0, []⟩).1.metrics.fallbackCount = 0) := by
  refine ⟨?_, ?_, ?_, ?_⟩
  · intro st line hstart hmal
    unfold stlScanLine
    dsimp only
    rw [if_pos hstart, hmal]
  · intro st line hne hv hmal
    unfold objScanLine
    dsimp only
    rw [if_neg hne, if_pos hv, hmal]
  · intro line rest n acc hne hmal
    have hstep : plyVertexLoop (line :: rest) (n + 1) acc =
        if jsTrim line = "" then plyVertexLoop rest (n + 1) acc
        else plyVertexLoop rest n
          (jsParseFloat ((splitWs (jsTrim line)).getD 2 "") ::
            jsParseFloat ((splitWs (jsTrim line)).getD 1 "") ::
            jsParseFloat ((splitWs (jsTrim line)).getD 0 "") :: acc) := rfl
    rw [hstep, if_neg hne, hmal]
  · exact ⟨by decide, by decide, by decide⟩

/-- C4 witness: the amended theorem at a malformed STL `vertex` line,
a malformed OBJ `v` line and a malformed PLY vertex line, each against
an empty accumulator. -/
theorem malformed_token_coerced_to_nan_witness :
    stlScanLine ⟨[], [], 0⟩ "vertex a 1 2" =
      { revVertices := [jsParseFloat ((splitWs (jsTrim "vertex a 1 2")).getD 3 ""),
                        jsParseFloat ((splitWs (jsTrim "vertex a 1 2")).getD 2 ""), none],
        revIndices := [], vertexIndex := 0 } ∧
    objScanLine ⟨[], []⟩ "v x 2 3" =
      { revVertices := [jsParseFloat ((splitWs (jsTrim "v x 2 3")).getD 3 ""),
                        jsParseFloat ((splitWs (jsTrim "v x 2 3")).getD 2 ""), none],
        revIndices := [] } ∧
    plyVertexLoop ["q 5 6"] 1 [] =
      plyVertexLoop [] 0
        [jsParseFloat ((splitWs (jsTrim "q 5 6")).getD 2 ""),
         jsParseFloat ((splitWs (jsTrim "q 5 6")).getD 1 ""), none] ∧
    (loadMeshAsset "bad.stl" c4Bytes defaultOptions ⟨0, []⟩).1.status = .success := by
  have h := malformed_token_coerced_to_nan
  exact ⟨h.1 ⟨[], [], 0⟩ "vertex a 1 2" (by decide) (by decide),
    h.2.1 ⟨[], []⟩ "v x 2 3" (by decide) (by decide) (by decide),
    h.2.2.1 "q 5 6" [] 0 [] (by decide) (by decide),
    h.2.2.2.1⟩

/-- The 12-facet ASCII cube STL of the worked example (36 duplicated
`vertex` lines, one `endfacet` per triangle). -/
def cubeStl : String :=
  "solid cube\nfacet normal 0 0 -1\nouter loop\nvertex 0 0 0\nvertex 1 1 0\nvertex 1 0 0\nendloop\nendfacet\nfacet normal 0 0 -1\nouter loop\nvertex 0 0 0\nvertex 1 0 0\nvertex 0 1 0\nendloop\nendfacet\nfacet normal 0 0 1\nouter loop\nvertex 0 0 1\nvertex 1 0 1\nvertex 1 1 1\nendloop\nendfacet\nfacet normal 0 0 1\nouter loop\nvertex 0 0 1\nvertex 1 1 1\nvertex 0 1 1\nendloop\nendfacet\nfacet normal 0 -1 0\nouter loop\nvertex 0 0 0\nvertex 1 0 0\nvertex 1 0 1\nendloop\nendfacet\nfacet normal 0 -1 0\nouter loop\nvertex 0 0 0\nvertex 1 0 1\nvertex 0 0 1\nendloop\nendfacet\nfacet normal 0 1 0\nouter loop\nvertex 0 1 0\nvertex 1 1 1\nvertex 1 1 0\nendloop\nendfacet\nfacet normal 0 1 0\nouter loop\nvertex 0 1 0\nvertex 1 1 0\nvertex 0 1 1\nendloop\nendfacet\nfacet normal -1 0 0\nouter loop\nvertex 0 0 0\nvertex 0 0 1\nvertex 0 1 1\nendloop\nendfacet\nfacet normal -1 0 0\nouter loop\nvertex 0 0 0\nvertex 0 1 1\nvertex 0 1 0\nendloop\nendfacet\nfacet normal 1 0 0\nouter loop\nvertex 1 0 0\nvertex 1 1 0\nvertex 1 1 1\nendloop\nendfacet\nfacet normal 1 0 0\nouter loop\nvertex 1 0 0\nvertex 1 1 1\nvertex 1 0 1\nendloop\nendfacet\nendsolid cube\n"

set_option maxRecDepth 1000000 in
/-- C5: loading the minimal ASCII cube STL yields 36 vertices and 12
triangles, the asset's format is the ASCII STL variant (spelled `stl`
in the source, `stl_ascii` in the design document), no vertex is
deduplicated (108 stored coordinates), and the index buffer is exactly
`0,...,35`, so triangle `k` uses indices `3k, 3k+1, 3k+2`. -/
theorem ascii_cube_stl_example :
    (loadMeshAsset "cube.stl" (asciiBytes cubeStl) defaultOptions ⟨0, []⟩).1.status = .success ∧
    (loadMeshAsset "cube.stl" (asciiBytes cubeStl) defaultOptions ⟨0, []⟩).1.metrics.vertexCount = 36 ∧
    (loadMeshAsset "cube.stl" (asciiBytes cubeStl) defaultOptions ⟨0, []⟩).1.metrics.triangleCount = 12 ∧
    ((loadMeshAsset "cube.stl" (asciiBytes cubeStl) defaultOptions ⟨0, []⟩).1.asset.map
      (fun a => a.format)) = some MeshFormat.stl ∧
    ((loadMeshAsset "cube.stl" (asciiBytes cubeStl) defaultOptions ⟨0, []⟩).1.asset.map
      (fun a => a.buffers.vertexView.length)) = some 108 ∧
    ((loadMeshAsset "cube.stl" (asciiBytes cubeStl) defaultOptions ⟨0, []⟩).1.asset.map
      (fun a => a.buffers.indexView)) = some (List.range 36) ∧
    ∀ k : Fin 12,
      ((((loadMeshAsset "cube.stl" (asciiBytes cubeStl) defaultOptions ⟨0, []⟩).1.asset.map
        (fun a => a.buffers.indexView)).getD []).drop (3 * k.val)).take 3 =
        [3 * k.val, 3 * k.val + 1, 3 * k.val + 2] := by
  have hidx : ((loadMeshAsset "cube.stl" (asciiBytes cubeStl) defaultOptions ⟨0, []⟩).1.asset.map
      (fun a => a.buffers.indexView)) = some (List.range 36) := by decide
  refine ⟨by decide, by decide, by decide, by decide, by decide, hidx, ?_⟩
  intro k
  rw [hidx]
  revert k
  decide

/-- C5 witness: the cube theorem instantiated at triangle 5. -/
theorem ascii_cube_stl_example_witness :
    (loadMeshAsset "cube.stl" (asciiBytes cubeStl) defaultOptions ⟨0, []⟩).1.status = .success ∧
    ((((loadMeshAsset "cube.stl" (asciiBytes cubeStl) defaultOptions ⟨0, []⟩).1.asset.map
      (fun a => a.buffers.indexView)).getD []).drop 15).take 3 = [15, 16, 17] :=
  ⟨ascii_cube_stl_example.1,
   ascii_cube_stl_example.2.2.2.2.2.2 ⟨5, by omega⟩⟩

/-- C7 witness: the watchdog theorem at a constant operation with the
timer firing. -/
theorem watchdog_diagnostic_only_witness :
    (withSharedBufferTimeout (fun _ => (42 : Nat)) true).value = 42 ∧
    (withSharedBufferTimeout (fun _ => (42 : Nat)) true).operationCalls = 1 ∧
    (withSharedBufferTimeout (fun _ => (42 : Nat)) true).timedOut = true ∧
    (withSharedBufferTimeout (fun _ => (42 : Nat)) true).warningsEmitted = 1 :=
  watchdog_diagnostic_only (fun _ => (42 : Nat)) true

/-- C8 witness: the ring-buffer theorem at a three-event history. -/
theorem log_buffer_bounded_most_recent_witness :
    logEmitterGetLogs (logBufferAfter [0, 1, 2]) =
      List.drop ([0, 1, 2].length - maxBufferSize) [0, 1, 2] ∧
    (logBufferAfter ([0, 1, 2] : List Nat)).length ≤ maxBufferSize :=
  log_buffer_bounded_most_recent [0, 1, 2]

/-- C10 witness: the negation theorem at `axis = x`, position 30,
against the unit-ish box. -/
theorem flipped_plane_negation_witness :
    (computeClippingPlane ⟨true, .x, 30, true⟩ ⟨⟨0, 0, 0⟩, ⟨2, 2, 2⟩⟩).normal =
      (computeClippingPlane ⟨true, .x, 30, false⟩ ⟨⟨0, 0, 0⟩, ⟨2, 2, 2⟩⟩).normal.neg ∧
    (computeClippingPlane ⟨true, .x, 30, true⟩ ⟨⟨0, 0, 0⟩, ⟨2, 2, 2⟩⟩).constant =
      -(computeClippingPlane ⟨true, .x, 30, false⟩ ⟨⟨0, 0, 0⟩, ⟨2, 2, 2⟩⟩).constant ∧
    ∀ v : Vec3,
      (computeClippingPlane ⟨true, .x, 30, true⟩ ⟨⟨0, 0, 0⟩, ⟨2, 2, 2⟩⟩).contains v ↔
      (computeClippingPlane ⟨true, .x, 30, false⟩ ⟨⟨0, 0, 0⟩, ⟨2, 2, 2⟩⟩).contains v :=
  flipped_plane_negation .x 30 true ⟨⟨0, 0, 0⟩, ⟨2, 2, 2⟩⟩

end MeshViewer
